import Mathlib

/-!
Verification of `instagram_analyzer.py` (Instagram Follower Analyzer).

Shallow embedding: usernames are `String`, Python `set` values are
`Finset String`, the external provider (instaloader) is an oracle whose
outcomes (login result, profile resolution, the two paginated
enumerations) are explicit inputs to the embedded `main`.  Writing the
report file and calling the provider are modelled as events in a trace;
`sys.exit(1)` and uncaught exceptions are distinct terminal results.
-/

namespace InstagramAnalyzer

/-! ## SetAnalyzer: the mutual set (source line 55: `mutual = followers & following`) -/

/-- Embedding of line 55 of `write_report`: `mutual = followers & following`. -/
def mutualOf (followers following : Finset String) : Finset String :=
  followers ∩ following

/-! ## Timestamps (source lines 56 and 61: `datetime.now().strftime(...)`)

`datetime` components are bounded (`1 ≤ month ≤ 12`, `hour ≤ 23`, ...).
The `%m %d %H %M %S` directives zero-pad to two digits; `%Y` prints the
year, four digits for any real calendar year of a run.  `digitChar`/`pad2`/
`pad4` implement exactly this decimal rendering for in-range components. -/

structure Timestamp where
  year : Nat
  month : Nat
  day : Nat
  hour : Nat
  minute : Nat
  second : Nat
deriving DecidableEq, Repr

/-- Decimal digit character for `n < 10`. -/
def digitChar (n : Nat) : Char := Char.ofNat (48 + n)

/-- Two-digit zero-padded decimal rendering (strftime `%m`, `%d`, `%H`, `%M`, `%S`). -/
def pad2 (n : Nat) : String :=
  String.mk [digitChar (n / 10 % 10), digitChar (n % 10)]

/-- Four-digit decimal rendering (strftime `%Y` for years 1000..9999). -/
def pad4 (n : Nat) : String :=
  String.mk [digitChar (n / 1000 % 10), digitChar (n / 100 % 10),
             digitChar (n / 10 % 10), digitChar (n % 10)]

/-- Embedding of `strftime("%Y%m%d_%H%M%S")` (source line 56). -/
def strftimeCompact (t : Timestamp) : String :=
  pad4 t.year ++ pad2 t.month ++ pad2 t.day ++ "_" ++
    pad2 t.hour ++ pad2 t.minute ++ pad2 t.second

/-- Embedding of `strftime("%Y-%m-%d %H:%M:%S")` (source line 61). -/
def strftimeHuman (t : Timestamp) : String :=
  pad4 t.year ++ "-" ++ pad2 t.month ++ "-" ++ pad2 t.day ++ " " ++
    pad2 t.hour ++ ":" ++ pad2 t.minute ++ ":" ++ pad2 t.second

/-! ## ReportWriter (source lines 53-82, `write_report`) -/

/-- Lexicographically sorted list of a set of usernames: Python `sorted(s)`
(source lines 67, 73, 79). -/
def sortedUsers (s : Finset String) : List String :=
  s.sort (· ≤ ·)

/-- The entry lines of one report section: `f.write(f"@{username}\n")` for
each username of the set in sorted order (source lines 67-68, 73-74, 79-80). -/
def entryLines (s : Finset String) : List String :=
  (sortedUsers s).map (fun u => "@" ++ u)

/-- The `"-" * 40` rule written under each section header (lines 66, 72, 78). -/
def dashRule : String := String.mk (List.replicate 40 '-')

/-- The `"=" * 60` rule written under the report title (line 62). -/
def eqRule : String := String.mk (List.replicate 60 '=')

/-- What `write_report` produces: the report file name, the file content
(split by section, at line granularity: each `f.write(... + "\n")` of the
source contributes one line, a leading `"\n"` an extra empty line), and the
counts of the returned tuple `(filename, len(followers), len(following),
len(mutual))` (line 82). -/
structure ReportResult where
  filename : String
  headerLines : List String
  followingHeader : String
  followingLines : List String
  followersHeader : String
  followersLines : List String
  mutualHeader : String
  mutualLines : List String
  n_followers : Nat
  n_following : Nat
  n_mutual : Nat
deriving DecidableEq, Repr

/-- The full file content of a report as a list of lines, in the order the
source writes them: title block (lines 60-62), following section (65-68),
a blank line then the followers section (71-74), a blank line then the
mutual section (77-80). -/
def ReportResult.content (r : ReportResult) : List String :=
  r.headerLines
    ++ [r.followingHeader, dashRule] ++ r.followingLines
    ++ ["", r.followersHeader, dashRule] ++ r.followersLines
    ++ ["", r.mutualHeader, dashRule] ++ r.mutualLines

/-- Embedding of `write_report(target_username, followers, following)`
(source lines 53-82).  The two `datetime.now()` calls (lines 56 and 61)
are passed in as `now1` and `now2`. -/
def write_report (target_username : String) (followers following : Finset String)
    (now1 now2 : Timestamp) : ReportResult :=
  let mut_set := mutualOf followers following
  let timestamp := strftimeCompact now1
  let filename := target_username ++ "_analysis_" ++ timestamp ++ ".txt"
  { filename := filename
    headerLines := ["Instagram Follower Analysis for @" ++ target_username,
                    "Generated: " ++ strftimeHuman now2,
                    eqRule, ""]
    followingHeader := "ACCOUNTS @" ++ target_username ++ " FOLLOWS ("
                         ++ toString following.card ++ ")"
    followingLines := entryLines following
    followersHeader := "ACCOUNTS THAT FOLLOW @" ++ target_username ++ " ("
                         ++ toString followers.card ++ ")"
    followersLines := entryLines followers
    mutualHeader := "MUTUAL FOLLOWS - Both follow each other ("
                      ++ toString mut_set.card ++ ")"
    mutualLines := entryLines mut_set
    n_followers := followers.card
    n_following := following.card
    n_mutual := mut_set.card }

/-! ## Heap model of `write_report`'s set arguments

Python passes the two `set` objects by reference.  To state the frame
property (the function does not mutate its arguments) we thread an explicit
heap of set objects: the arguments are addresses, and the one set-valued
local created by the function body (`mutual`, line 55) is allocated fresh.
No statement of lines 53-82 writes through either argument reference. -/

structure SetHeap where
  store : Nat → Finset String
  next : Nat

/-- Heap-passing embedding of `write_report`: `followersRef` and
`followingRef` are the addresses of the caller's two sets; line 55
allocates a fresh set for `mutual`; every other access is a read. -/
def write_report_heap (target_username : String) (followersRef followingRef : Nat)
    (h : SetHeap) (now1 now2 : Timestamp) : ReportResult × SetHeap :=
  let followers := h.store followersRef
  let following := h.store followingRef
  let mut_set := mutualOf followers following
  let h1 : SetHeap := ⟨fun a => if a = h.next then mut_set else h.store a, h.next + 1⟩
  (write_report target_username followers following now1 now2, h1)

/-! ## ProfileFetcher (source lines 13-50, `get_profile_data`) and main -/

/-- Outcome of `instaloader.Profile.from_username` (source lines 16-23). -/
inductive ResolveOutcome where
  | found
  | notExists
  | loginRequiredAtResolve
deriving DecidableEq, Repr

/-- One paginated enumeration (`profile.get_followees()` or
`profile.get_followers()`): either it yields a full finite stream of
usernames, or it yields a prefix and then raises
`LoginRequiredException` mid-stream (source lines 30-36, 41-47). -/
inductive Enumeration where
  | complete (names : List String)
  | loginRequired (names : List String)
deriving DecidableEq, Repr

/-- Whether an enumeration runs to completion. -/
def Enumeration.isComplete : Enumeration → Bool
  | .complete _ => true
  | .loginRequired _ => false

/-- Collecting a yielded stream into a `set` (source lines 29-32, 40-43:
`s = set(); for x in ...: s.add(x.username)`). -/
def collect (names : List String) : Finset String :=
  names.foldl (fun s u => insert u s) ∅

/-- Outcome of first login attempt `loader.login(...)` (source lines 111-123). -/
inductive LoginAttempt where
  | success
  | badCredentials
  | twoFactorRequired
  | otherError (msg : String)
deriving DecidableEq, Repr

/-- Outcome of the two-factor retry `loader.two_factor_login(code)`
(source line 119). -/
inductive TwoFactorResult where
  | success
  | failure (msg : String)
deriving DecidableEq, Repr

/-- Externally visible calls of a run: provider calls and the report file
write.  Console prompts and prints are not events. -/
inductive Event where
  | loginCall
  | twoFactorCall
  | resolveCall
  | fetchFollowees
  | fetchFollowers
  | writeFile (filename : String)
deriving DecidableEq, Repr

/-- How a run of `main` terminates: `sys.exit(1)` after printing `msg`
(`exitFailure`), an exception propagating out of `main` uncaught — the
interpreter then terminates the process with status 1 printing a traceback
(`uncaught`) — or normal completion with a written report (`done`,
process status 0). -/
inductive RunResult where
  | exitFailure (msg : String)
  | uncaught (msg : String)
  | done (report : ReportResult)
deriving DecidableEq, Repr

/-- The process exit status of a terminated run (Python exits 1 on
`sys.exit(1)` and on an uncaught exception, 0 on falling off `main`). -/
def RunResult.exitCode : RunResult → Nat
  | .exitFailure _ => 1
  | .uncaught _ => 1
  | .done _ => 0

/-- Whether the run ended in a handled failure: an error message printed
by the program itself followed by `sys.exit(1)`. -/
def RunResult.isHandledFailure : RunResult → Bool
  | .exitFailure _ => true
  | _ => false

/-- The report of a completed run, if any. -/
def RunResult.reportOf : RunResult → Option ReportResult
  | .done r => some r
  | _ => none

/-- Intermediate result of `get_profile_data` (source lines 13-50):
either a `sys.exit(1)` with the printed message, or the pair
`(followers, following)` returned on line 50. -/
inductive FetchPhase where
  | exit1 (msg : String)
  | fetched (followers following : Finset String)
deriving DecidableEq

/-- Embedding of `get_profile_data(loader, target_username)` (source lines
13-50), together with the provider calls it makes.  Resolution failure or a
`LoginRequiredException` during either enumeration prints an error and
exits 1; only when both enumerations complete does it return the two sets. -/
def get_profile_data (target_username : String) (resolve : ResolveOutcome)
    (followeesEnum followersEnum : Enumeration) : FetchPhase × List Event :=
  match resolve with
  | .notExists =>
      (.exit1 ("Error: Profile @" ++ target_username ++ " does not exist."),
       [.resolveCall])
  | .loginRequiredAtResolve =>
      (.exit1 "Error: This profile is private. Login is required and you must follow this account.",
       [.resolveCall])
  | .found =>
      match followeesEnum with
      | .loginRequired _ =>
          (.exit1 "Error: Login required to fetch following list.",
           [.resolveCall, .fetchFollowees])
      | .complete followeeNames =>
          let following := collect followeeNames
          match followersEnum with
          | .loginRequired _ =>
              (.exit1 "Error: Login required to fetch followers list.",
               [.resolveCall, .fetchFollowees, .fetchFollowers])
          | .complete followerNames =>
              (.fetched (collect followerNames) following,
               [.resolveCall, .fetchFollowees, .fetchFollowers])

/-- Python `str.strip()` whitespace predicate (ASCII part). -/
def pyIsSpace (c : Char) : Bool :=
  c = ' ' || c = '\t' || c = '\n' || c = '\x0d' || c = '\x0b' || c = '\x0c'

/-- Python `str.strip()`: remove leading and trailing whitespace. -/
def pyStrip (s : String) : String :=
  String.mk (((s.toList.dropWhile pyIsSpace).reverse.dropWhile pyIsSpace).reverse)

/-- Python `str.lstrip("@")`: remove ALL leading `'@'` characters. -/
def lstripAts (s : String) : String :=
  String.mk (s.toList.dropWhile (· = '@'))

/-- The target-username normalization of source line 90:
`input(...).strip().lstrip("@")`. -/
def normalizeTarget (raw : String) : String :=
  lstripAts (pyStrip raw)

/-- Everything `main` consumes: the raw console input for the target
username, and the oracle outcomes of each provider call (first login,
two-factor retry, profile resolution, the two enumerations) plus the two
clock readings of `write_report`. -/
structure MainInputs where
  rawTarget : String
  login1 : LoginAttempt
  twoFactorRetry : TwoFactorResult
  resolve : ResolveOutcome
  followeesEnum : Enumeration
  followersEnum : Enumeration
  now1 : Timestamp
  now2 : Timestamp
deriving DecidableEq, Repr

/-- The pipeline after a successful login (source lines 125-134):
`get_profile_data` then `write_report`; the file-creation side effect of
`write_report` is the `writeFile` event. -/
def runPipeline (target_username : String) (inp : MainInputs) : RunResult × List Event :=
  match get_profile_data target_username inp.resolve inp.followeesEnum inp.followersEnum with
  | (.exit1 msg, evs) => (.exitFailure msg, evs)
  | (.fetched followers following, evs) =>
      let r := write_report target_username followers following inp.now1 inp.now2
      (.done r, evs ++ [.writeFile r.filename])

/-- Embedding of `main()` (source lines 85-134).  Empty normalized target:
exit 1 before any provider call (lines 90-93).  Login (lines 111-123):
`BadCredentialsException` and generic exceptions are handled with a message
and exit 1; on `TwoFactorAuthRequiredException` a code is prompted and
`two_factor_login(code)` is called on line 119 — an exception raised there
is raised inside the `except` handler, so no `except` clause of the same
`try` catches it and it propagates out of `main` uncaught. -/
def main (inp : MainInputs) : RunResult × List Event :=
  let target_username := normalizeTarget inp.rawTarget
  if target_username = "" then
    (.exitFailure "Error: Username cannot be empty.", [])
  else
    match inp.login1 with
    | .badCredentials =>
        (.exitFailure "Error: Invalid username or password.", [.loginCall])
    | .otherError e =>
        (.exitFailure ("Login error: " ++ e), [.loginCall])
    | .twoFactorRequired =>
        (match inp.twoFactorRetry with
         | .failure e => (.uncaught e, [.loginCall, .twoFactorCall])
         | .success =>
             let (res, evs) := runPipeline target_username inp
             (res, [.loginCall, .twoFactorCall] ++ evs))
    | .success =>
        let (res, evs) := runPipeline target_username inp
        (res, [.loginCall] ++ evs)

/-- A login phase that lets execution continue past line 123: either the
first `loader.login` succeeds, or it raises the two-factor challenge and
the retry with the prompted code succeeds. -/
def loginSucceeds (inp : MainInputs) : Prop :=
  inp.login1 = .success ∨
    (inp.login1 = .twoFactorRequired ∧ inp.twoFactorRetry = .success)

/-- Whether a trace contains the report-file write. -/
def wroteReport (evs : List Event) : Bool :=
  evs.any fun e => match e with
    | .writeFile _ => true
    | _ => false

/-- Whether a trace contains any provider (network) call. -/
def anyNetworkCall (evs : List Event) : Bool :=
  evs.any fun e => match e with
    | .loginCall => true
    | .twoFactorCall => true
    | .resolveCall => true
    | .fetchFollowees => true
    | .fetchFollowers => true
    | .writeFile _ => false

/-! ## Helper lemmas -/

lemma toList_at_append (u : String) : ("@" ++ u).toList = '@' :: u.toList := by
  show (("@" ++ u).data = _)
  rw [String.data_append]
  rfl

lemma at_append_le_at_append {u v : String} (h : u ≤ v) :
    ("@" ++ u : String) ≤ "@" ++ v := by
  rw [String.le_iff_toList_le] at h ⊢
  rw [toList_at_append, toList_at_append]
  exact List.cons_le_cons '@' h

lemma at_append_injective : Function.Injective (fun u : String => "@" ++ u) := by
  intro u v h
  simp only at h
  have h2 : ("@" ++ u).toList = ("@" ++ v).toList := by rw [h]
  rw [toList_at_append, toList_at_append] at h2
  exact String.toList_inj.mp (List.cons_injective h2)

lemma sortedUsers_sorted (s : Finset String) : (sortedUsers s).Sorted (· ≤ ·) :=
  Finset.sort_sorted _ s

lemma sortedUsers_nodup (s : Finset String) : (sortedUsers s).Nodup :=
  Finset.sort_nodup _ s

lemma mem_sortedUsers {s : Finset String} {u : String} :
    u ∈ sortedUsers s ↔ u ∈ s :=
  Finset.mem_sort _

lemma entryLines_sorted (s : Finset String) : (entryLines s).Sorted (· ≤ ·) := by
  unfold entryLines
  rw [List.Sorted, List.pairwise_map]
  exact (sortedUsers_sorted s).imp fun h => at_append_le_at_append h

lemma entryLines_nodup (s : Finset String) : (entryLines s).Nodup :=
  (sortedUsers_nodup s).map at_append_injective

lemma mem_entryLines {s : Finset String} {l : String} :
    l ∈ entryLines s ↔ ∃ u ∈ s, l = "@" ++ u := by
  unfold entryLines
  simp only [List.mem_map, mem_sortedUsers]
  exact exists_congr fun u => and_congr_right fun _ => eq_comm

lemma entryLines_length (s : Finset String) : (entryLines s).length = s.card := by
  unfold entryLines sortedUsers
  rw [List.length_map, Finset.length_sort]

lemma head_dropWhile_all_not {α : Type} (p : α → Bool) (l : List α) :
    ((l.dropWhile p).head?.all fun c => !(p c)) = true := by
  induction l with
  | nil => rfl
  | cons a l ih =>
      by_cases h : p a
      · simpa [List.dropWhile_cons, h] using ih
      · simp [List.dropWhile_cons, h]

/-- A well-formed report section over the set `s`: the lines are exactly the
entry lines of `s` (each username prefixed with `"@"`), lexicographically
sorted, without duplicates. -/
def goodSection (s : Finset String) (lines : List String) : Prop :=
  lines = entryLines s ∧ lines.Sorted (· ≤ ·) ∧ lines.Nodup ∧
    ∀ l ∈ lines, ∃ u ∈ s, l = "@" ++ u

lemma goodSection_entryLines (s : Finset String) : goodSection s (entryLines s) :=
  ⟨rfl, entryLines_sorted s, entryLines_nodup s, fun _ hl => mem_entryLines.mp hl⟩

/-! ## Claims -/

/-- C1: for every pair of finite sets of usernames A (following) and
B (followers), the mutual set computed by the program (line 55,
`mutual = followers & following`) equals the intersection A ∩ B;
consequently mutual ⊆ A, mutual ⊆ B, and card mutual ≤ min (card A)
(card B); when both inputs are empty the result is the empty set (and, the
function being total on `Finset`, no error is raised). -/
theorem C1_mutual_is_intersection (followers following : Finset String) :
    mutualOf followers following = following ∩ followers ∧
    mutualOf followers following ⊆ following ∧
    mutualOf followers following ⊆ followers ∧
    (mutualOf followers following).card ≤ min following.card followers.card ∧
    mutualOf (∅ : Finset String) (∅ : Finset String) = ∅ := by
  refine ⟨Finset.inter_comm _ _, Finset.inter_subset_right, Finset.inter_subset_left,
    le_min ?_ ?_, by simp [mutualOf]⟩
  · exact Finset.card_le_card Finset.inter_subset_right
  · exact Finset.card_le_card Finset.inter_subset_left

/-- C2: for every target username and pair of follower/following sets, the
report written by `write_report` consists of three sections in the order
following, followers, mutual; each section is preceded by a header line
containing the section label and the section count; each entry line is the
username prefixed with `"@"`; and each section, as a list of entry lines,
is lexicographically sorted with no duplicates. -/
theorem C2_report_sections (target : String) (followers following : Finset String)
    (now1 now2 : Timestamp) :
    (write_report target followers following now1 now2).content =
      (write_report target followers following now1 now2).headerLines
        ++ ["ACCOUNTS @" ++ target ++ " FOLLOWS (" ++ toString following.card ++ ")",
            dashRule]
        ++ entryLines following
        ++ ["", "ACCOUNTS THAT FOLLOW @" ++ target ++ " (" ++ toString followers.card ++ ")",
            dashRule]
        ++ entryLines followers
        ++ ["", "MUTUAL FOLLOWS - Both follow each other ("
              ++ toString (mutualOf followers following).card ++ ")",
            dashRule]
        ++ entryLines (mutualOf followers following) ∧
    goodSection following (write_report target followers following now1 now2).followingLines ∧
    goodSection followers (write_report target followers following now1 now2).followersLines ∧
    goodSection (mutualOf followers following)
      (write_report target followers following now1 now2).mutualLines := by
  refine ⟨rfl, ?_, ?_, ?_⟩ <;> exact goodSection_entryLines _

/-- C8: for a fixed triple (following set, followers set, target username),
two runs of report generation — i.e. two calls of `write_report` with
arbitrary, possibly different clock readings — produce identical entry
lists in all three sections and identical counts; only the filename and
the `Generated:` line may depend on the time.  The list content of the
report is thus a deterministic function of (A, B, target). -/
theorem C8_content_deterministic (target : String) (followers following : Finset String)
    (now1 now2 now1' now2' : Timestamp) :
    (write_report target followers following now1 now2).followingLines =
      (write_report target followers following now1' now2').followingLines ∧
    (write_report target followers following now1 now2).followersLines =
      (write_report target followers following now1' now2').followersLines ∧
    (write_report target followers following now1 now2).mutualLines =
      (write_report target followers following now1' now2').mutualLines ∧
    (write_report target followers following now1 now2).followingHeader =
      (write_report target followers following now1' now2').followingHeader ∧
    (write_report target followers following now1 now2).followersHeader =
      (write_report target followers following now1' now2').followersHeader ∧
    (write_report target followers following now1 now2).mutualHeader =
      (write_report target followers following now1' now2').mutualHeader ∧
    (write_report target followers following now1 now2).n_followers =
      (write_report target followers following now1' now2').n_followers ∧
    (write_report target followers following now1 now2).n_following =
      (write_report target followers following now1' now2').n_following ∧
    (write_report target followers following now1 now2).n_mutual =
      (write_report target followers following now1' now2').n_mutual :=
  ⟨rfl, rfl, rfl, rfl, rfl, rfl, rfl, rfl, rfl⟩

/-- C9: `write_report` does not mutate its `followers` and `following` set
arguments.  In the heap model the two argument references hold the same
sets after the call as before it; the only allocation is the fresh set
bound to `mutual` on line 55 (placed at the previously unused address
`h.next`). -/
theorem C9_arguments_not_mutated (target : String) (followersRef followingRef : Nat)
    (h : SetHeap) (now1 now2 : Timestamp)
    (h1 : followersRef < h.next) (h2 : followingRef < h.next) :
    ((write_report_heap target followersRef followingRef h now1 now2).2).store followersRef
        = h.store followersRef ∧
    ((write_report_heap target followersRef followingRef h now1 now2).2).store followingRef
        = h.store followingRef := by
  constructor <;>
    simp [write_report_heap, Nat.ne_of_lt h1, Nat.ne_of_lt h2]

/-- Witness for C9 at a concrete heap holding the sets of Scenario 1 of
the spec at addresses 0 and 1. -/
theorem C9_arguments_not_mutated_witness :
    ((0 : Nat) < 2) ∧ ((1 : Nat) < 2) ∧
    (((write_report_heap "emerald" 0 1
          ⟨fun a => if a = 0 then {"bob", "carol"} else if a = 1 then {"alice", "bob"} else ∅, 2⟩
          ⟨2026, 10, 12, 9, 30, 0⟩ ⟨2026, 10, 12, 9, 30, 1⟩).2).store 0
        = (⟨fun a => if a = 0 then {"bob", "carol"} else if a = 1 then {"alice", "bob"} else ∅,
            2⟩ : SetHeap).store 0 ∧
     ((write_report_heap "emerald" 0 1
          ⟨fun a => if a = 0 then {"bob", "carol"} else if a = 1 then {"alice", "bob"} else ∅, 2⟩
          ⟨2026, 10, 12, 9, 30, 0⟩ ⟨2026, 10, 12, 9, 30, 1⟩).2).store 1
        = (⟨fun a => if a = 0 then {"bob", "carol"} else if a = 1 then {"alice", "bob"} else ∅,
            2⟩ : SetHeap).store 1) :=
  ⟨by decide, by decide,
   C9_arguments_not_mutated "emerald" 0 1 _ _ _ (by decide) (by decide)⟩

/-- C10: in every report produced by `write_report`, the count displayed in
each section header equals the number of `"@"`-prefixed entry lines of that
section, and equals the cardinality of the corresponding set; and these
same three counts are the `n_followers`/`n_following`/`n_mutual` components
of the tuple `write_report` returns to the caller for the final summary. -/
theorem C10_header_counts (target : String) (followers following : Finset String)
    (now1 now2 : Timestamp) :
    (write_report target followers following now1 now2).followingHeader =
        "ACCOUNTS @" ++ target ++ " FOLLOWS ("
          ++ toString (write_report target followers following now1 now2).followingLines.length
          ++ ")" ∧
    (write_report target followers following now1 now2).followingLines.length = following.card ∧
    (write_report target followers following now1 now2).n_following = following.card ∧
    (write_report target followers following now1 now2).followersHeader =
        "ACCOUNTS THAT FOLLOW @" ++ target ++ " ("
          ++ toString (write_report target followers following now1 now2).followersLines.length
          ++ ")" ∧
    (write_report target followers following now1 now2).followersLines.length = followers.card ∧
    (write_report target followers following now1 now2).n_followers = followers.card ∧
    (write_report target followers following now1 now2).mutualHeader =
        "MUTUAL FOLLOWS - Both follow each other ("
          ++ toString (write_report target followers following now1 now2).mutualLines.length
          ++ ")" ∧
    (write_report target followers following now1 now2).mutualLines.length =
        (mutualOf followers following).card ∧
    (write_report target followers following now1 now2).n_mutual =
        (mutualOf followers following).card := by
  refine ⟨?_, entryLines_length _, rfl, ?_, entryLines_length _, rfl, ?_,
    entryLines_length _, rfl⟩ <;>
    simp [write_report, entryLines_length]

lemma digitChar_isDigit : ∀ n, n < 10 → (digitChar n).isDigit = true := by decide

lemma digitChar_mod_isDigit (x : Nat) : (digitChar (x % 10)).isDigit = true :=
  digitChar_isDigit _ (Nat.mod_lt x (by norm_num))

lemma strftimeCompact_toList (t : Timestamp) :
    (strftimeCompact t).toList =
      [digitChar (t.year / 1000 % 10), digitChar (t.year / 100 % 10),
       digitChar (t.year / 10 % 10), digitChar (t.year % 10),
       digitChar (t.month / 10 % 10), digitChar (t.month % 10),
       digitChar (t.day / 10 % 10), digitChar (t.day % 10), '_',
       digitChar (t.hour / 10 % 10), digitChar (t.hour % 10),
       digitChar (t.minute / 10 % 10), digitChar (t.minute % 10),
       digitChar (t.second / 10 % 10), digitChar (t.second % 10)] := rfl

/-- C7: for every target username and generation time (ranging over valid
`datetime` component values), the report file name is exactly
`target_username ++ "_analysis_" ++ ts ++ ".txt"` where `ts` is the
generation time rendered in the `YYYYMMDD_HHMMSS` shape: 15 characters, an
underscore at index 8, all other characters decimal digits. -/
theorem C7_filename_format (target : String) (followers following : Finset String)
    (now1 now2 : Timestamp)
    (_hy1 : 1000 ≤ now1.year) (_hy2 : now1.year ≤ 9999)
    (_hm1 : 1 ≤ now1.month) (_hm2 : now1.month ≤ 12)
    (_hd1 : 1 ≤ now1.day) (_hd2 : now1.day ≤ 31)
    (_hh : now1.hour ≤ 23) (_hmi : now1.minute ≤ 59) (_hs : now1.second ≤ 59) :
    (write_report target followers following now1 now2).filename =
      target ++ "_analysis_" ++ strftimeCompact now1 ++ ".txt" ∧
    (strftimeCompact now1).toList.length = 15 ∧
    (strftimeCompact now1).toList.get? 8 = some '_' ∧
    ((strftimeCompact now1).toList.eraseIdx 8).all Char.isDigit = true := by
  refine ⟨rfl, ?_, ?_, ?_⟩ <;> rw [strftimeCompact_toList]
  · rfl
  · rfl
  · simp [List.eraseIdx, digitChar_mod_isDigit]

/-- Witness for C7 at the concrete generation time 2026-10-12 09:30:05. -/
theorem C7_filename_format_witness :
    ((1000 : Nat) ≤ 2026) ∧ ((2026 : Nat) ≤ 9999) ∧
    ((1 : Nat) ≤ 10) ∧ ((10 : Nat) ≤ 12) ∧
    ((1 : Nat) ≤ 12) ∧ ((12 : Nat) ≤ 31) ∧
    ((9 : Nat) ≤ 23) ∧ ((30 : Nat) ≤ 59) ∧ ((5 : Nat) ≤ 59) ∧
    ((write_report "emerald" {"bob"} {"alice"} ⟨2026, 10, 12, 9, 30, 5⟩
        ⟨2026, 10, 12, 9, 30, 6⟩).filename =
      "emerald" ++ "_analysis_" ++ strftimeCompact ⟨2026, 10, 12, 9, 30, 5⟩ ++ ".txt" ∧
     (strftimeCompact ⟨2026, 10, 12, 9, 30, 5⟩).toList.length = 15 ∧
     (strftimeCompact ⟨2026, 10, 12, 9, 30, 5⟩).toList.get? 8 = some '_' ∧
     ((strftimeCompact ⟨2026, 10, 12, 9, 30, 5⟩).toList.eraseIdx 8).all Char.isDigit = true) :=
  ⟨by decide, by decide, by decide, by decide, by decide, by decide, by decide, by decide,
   by decide,
   C7_filename_format "emerald" {"bob"} {"alice"} ⟨2026, 10, 12, 9, 30, 5⟩
     ⟨2026, 10, 12, 9, 30, 6⟩ (by decide) (by decide) (by decide) (by decide) (by decide)
     (by decide) (by decide) (by decide) (by decide)⟩

/-- C3: whenever login has succeeded and the provider then fails —
profile not found or private at resolution, or a login-required error
during enumeration of either list — the process exits with status 1 and
no report file is created; and in any run whatsoever the report file is
created only if resolution and both enumerations completed successfully
in full. -/
theorem C3_no_partial_report (inp : MainInputs) (hl : loginSucceeds inp) :
    ((inp.resolve ≠ .found ∨ inp.followeesEnum.isComplete = false ∨
        inp.followersEnum.isComplete = false) →
      (main inp).1.exitCode = 1 ∧ wroteReport (main inp).2 = false ∧
      (main inp).1.reportOf = none) ∧
    (wroteReport (main inp).2 = true →
      inp.resolve = .found ∧ inp.followeesEnum.isComplete = true ∧
      inp.followersEnum.isComplete = true) := by
  rcases hl with h1 | ⟨h1, h2⟩ <;>
    by_cases hT : normalizeTarget inp.rawTarget = "" <;>
    rcases hr : inp.resolve <;>
    rcases hfe : inp.followeesEnum <;>
    rcases hfo : inp.followersEnum <;>
    simp_all [main, runPipeline, get_profile_data, wroteReport,
      Enumeration.isComplete, RunResult.exitCode, RunResult.reportOf]

/-- Witness for C3: login succeeds, the following enumeration completes,
and the provider raises login-required while enumerating followers
(Scenario 5 of the spec). -/
theorem C3_no_partial_report_witness :
    loginSucceeds
      { rawTarget := "alice", login1 := .success, twoFactorRetry := .success,
        resolve := .found, followeesEnum := .complete ["bob", "carol"],
        followersEnum := .loginRequired ["bob"],
        now1 := ⟨2026, 10, 12, 9, 30, 0⟩, now2 := ⟨2026, 10, 12, 9, 30, 0⟩ } ∧
    (((MainInputs.mk "alice" .success .success .found (.complete ["bob", "carol"])
          (.loginRequired ["bob"]) ⟨2026, 10, 12, 9, 30, 0⟩
          ⟨2026, 10, 12, 9, 30, 0⟩).resolve ≠ .found ∨
        (MainInputs.mk "alice" .success .success .found (.complete ["bob", "carol"])
          (.loginRequired ["bob"]) ⟨2026, 10, 12, 9, 30, 0⟩
          ⟨2026, 10, 12, 9, 30, 0⟩).followeesEnum.isComplete = false ∨
        (MainInputs.mk "alice" .success .success .found (.complete ["bob", "carol"])
          (.loginRequired ["bob"]) ⟨2026, 10, 12, 9, 30, 0⟩
          ⟨2026, 10, 12, 9, 30, 0⟩).followersEnum.isComplete = false →
      (main (MainInputs.mk "alice" .success .success .found (.complete ["bob", "carol"])
          (.loginRequired ["bob"]) ⟨2026, 10, 12, 9, 30, 0⟩
          ⟨2026, 10, 12, 9, 30, 0⟩)).1.exitCode = 1 ∧
      wroteReport (main (MainInputs.mk "alice" .success .success .found
          (.complete ["bob", "carol"]) (.loginRequired ["bob"])
          ⟨2026, 10, 12, 9, 30, 0⟩ ⟨2026, 10, 12, 9, 30, 0⟩)).2 = false ∧
      (main (MainInputs.mk "alice" .success .success .found (.complete ["bob", "carol"])
          (.loginRequired ["bob"]) ⟨2026, 10, 12, 9, 30, 0⟩
          ⟨2026, 10, 12, 9, 30, 0⟩)).1.reportOf = none) ∧
     (wroteReport (main (MainInputs.mk "alice" .success .success .found
          (.complete ["bob", "carol"]) (.loginRequired ["bob"])
          ⟨2026, 10, 12, 9, 30, 0⟩ ⟨2026, 10, 12, 9, 30, 0⟩)).2 = true →
      (MainInputs.mk "alice" .success .success .found (.complete ["bob", "carol"])
          (.loginRequired ["bob"]) ⟨2026, 10, 12, 9, 30, 0⟩
          ⟨2026, 10, 12, 9, 30, 0⟩).resolve = .found ∧
      (MainInputs.mk "alice" .success .success .found (.complete ["bob", "carol"])
          (.loginRequired ["bob"]) ⟨2026, 10, 12, 9, 30, 0⟩
          ⟨2026, 10, 12, 9, 30, 0⟩).followeesEnum.isComplete = true ∧
      (MainInputs.mk "alice" .success .success .found (.complete ["bob", "carol"])
          (.loginRequired ["bob"]) ⟨2026, 10, 12, 9, 30, 0⟩
          ⟨2026, 10, 12, 9, 30, 0⟩).followersEnum.isComplete = true)) :=
  ⟨Or.inl rfl,
   C3_no_partial_report
     (MainInputs.mk "alice" .success .success .found (.complete ["bob", "carol"])
       (.loginRequired ["bob"]) ⟨2026, 10, 12, 9, 30, 0⟩ ⟨2026, 10, 12, 9, 30, 0⟩)
     (Or.inl rfl)⟩

/-- A run on which C4 can be tested: the first login raises the two-factor
challenge, and the retry with the prompted code fails. -/
def c4Input : MainInputs :=
  { rawTarget := "alice", login1 := .twoFactorRequired,
    twoFactorRetry := .failure "two-factor code rejected",
    resolve := .found, followeesEnum := .complete [], followersEnum := .complete [],
    now1 := ⟨2026, 10, 12, 9, 30, 0⟩, now2 := ⟨2026, 10, 12, 9, 30, 0⟩ }

/-- C4 counterexample: on `c4Input` the retry is made and fails, but the
program does not fail with a handled AuthenticationError (an error message
printed by the program followed by exit 1): the exception from
`two_factor_login` (line 119) is raised inside the `except` handler, no
clause of the same `try` catches it, and it propagates out of `main`
uncaught. -/
theorem C4_counterexample :
    Event.twoFactorCall ∈ (main c4Input).2 ∧
    (main c4Input).1 = .uncaught "two-factor code rejected" ∧
    (main c4Input).1.isHandledFailure = false := by decide

/-- C4 as amended: on a two-factor challenge the program prompts for a
one-time code and retries the login with it; if that retry also fails, the
exception propagates uncaught out of `main` — the process still terminates
with non-zero status (the interpreter prints a traceback), but not as a
handled AuthenticationError message printed by the program. -/
theorem C4_two_factor_retry (inp : MainInputs)
    (h1 : inp.login1 = .twoFactorRequired)
    (h2 : normalizeTarget inp.rawTarget ≠ "") :
    Event.twoFactorCall ∈ (main inp).2 ∧
    (∀ e, inp.twoFactorRetry = .failure e →
      (main inp).1 = .uncaught e ∧ (main inp).1.exitCode = 1 ∧
      (main inp).1.isHandledFailure = false ∧ wroteReport (main inp).2 = false) := by
  constructor
  · rcases h3 : inp.twoFactorRetry with _ | e <;> simp [main, h1, h2, h3]
  · intro e h3
    simp [main, h1, h2, h3, RunResult.exitCode, RunResult.isHandledFailure, wroteReport]

/-- Witness for the amended C4 at `c4Input`. -/
theorem C4_two_factor_retry_witness :
    c4Input.login1 = .twoFactorRequired ∧ normalizeTarget c4Input.rawTarget ≠ "" ∧
    (Event.twoFactorCall ∈ (main c4Input).2 ∧
     (∀ e, c4Input.twoFactorRetry = .failure e →
       (main c4Input).1 = .uncaught e ∧ (main c4Input).1.exitCode = 1 ∧
       (main c4Input).1.isHandledFailure = false ∧
       wroteReport (main c4Input).2 = false)) :=
  ⟨rfl, by decide, C4_two_factor_retry c4Input rfl (by decide)⟩

/-- C5: whenever the target username entered is empty after normalization,
the program reports the input error and exits with status 1 with an empty
event trace: no login call and no network call is attempted (and no report
is written). -/
theorem C5_empty_username (inp : MainInputs)
    (h : normalizeTarget inp.rawTarget = "") :
    (main inp).1 = .exitFailure "Error: Username cannot be empty." ∧
    (main inp).1.exitCode = 1 ∧
    (main inp).2 = [] ∧
    anyNetworkCall (main inp).2 = false ∧
    wroteReport (main inp).2 = false := by
  simp [main, h, RunResult.exitCode, anyNetworkCall, wroteReport]

/-- A run on which C5 can be tested: the raw console input normalizes to
the empty username. -/
def c5Input : MainInputs :=
  { rawTarget := "  @@ ", login1 := .success, twoFactorRetry := .success,
    resolve := .found, followeesEnum := .complete ["bob"],
    followersEnum := .complete ["bob"],
    now1 := ⟨2026, 10, 12, 9, 30, 0⟩, now2 := ⟨2026, 10, 12, 9, 30, 0⟩ }

/-- Witness for C5 at `c5Input`. -/
theorem C5_empty_username_witness :
    normalizeTarget c5Input.rawTarget = "" ∧
    ((main c5Input).1 = .exitFailure "Error: Username cannot be empty." ∧
     (main c5Input).1.exitCode = 1 ∧
     (main c5Input).2 = [] ∧
     anyNetworkCall (main c5Input).2 = false ∧
     wroteReport (main c5Input).2 = false) :=
  ⟨by decide, C5_empty_username c5Input (by decide)⟩

/-- Modelled from the spec sentence of C6, for refinement comparison with
`normalizeTarget` (the code): surrounding whitespace removed and the
single leading `"@"`, when present, stripped. -/
def specNormalize (raw : String) : String :=
  match (pyStrip raw).toList with
  | '@' :: rest => String.mk rest
  | l => String.mk l

/-- C6 counterexample: on the raw input `"@@alice"` the code strips ALL
leading `"@"` characters (Python `str.lstrip` removes every leading
character of the given set), yielding `"alice"`, while the claim as
stated — the (one) leading `"@"` stripped — yields `"@alice"`. -/
theorem C6_counterexample :
    normalizeTarget "@@alice" = "alice" ∧
    specNormalize "@@alice" = "@alice" ∧
    ¬ normalizeTarget "@@alice" = specNormalize "@@alice" := by decide

/-- C6 as amended: the normalized target username is the raw console input
with surrounding whitespace removed and then ALL leading `"@"` characters
stripped; the result never starts with `"@"`, and its characters are a
contiguous fragment of the input with their case preserved as provided. -/
theorem C6_normalization (raw : String) :
    normalizeTarget raw = lstripAts (pyStrip raw) ∧
    (normalizeTarget raw).toList = (pyStrip raw).toList.dropWhile (· = '@') ∧
    (normalizeTarget raw).toList <:+ (pyStrip raw).toList ∧
    (normalizeTarget raw).toList.head?.all (fun c => !(c = '@')) = true ∧
    (normalizeTarget raw).toList.IsInfix raw.toList := by
  refine ⟨rfl, rfl, ?_, ?_, ?_⟩
  · exact List.dropWhile_suffix _
  · show ((pyStrip raw).toList.dropWhile (· = '@')).head?.all _ = true
    exact head_dropWhile_all_not _ _
  · refine List.IsInfix.trans ((List.dropWhile_suffix _).isInfix) ?_
    show (List.rdropWhile pyIsSpace (raw.toList.dropWhile pyIsSpace)).IsInfix raw.toList
    exact List.IsInfix.trans ((List.rdropWhile_prefix _ _).isInfix)
      ((List.dropWhile_suffix _).isInfix)

end InstagramAnalyzer
